import Mathlib

/-!
Verification of the discount/settlement core of the pay repository.

The embedding below translates the TypeScript source:
  * the storage layer (OrderService, DiscountService, PaymentRecordService)
    from src/lib/storage,
  * the settlement orchestrator (the POST handler of the payment route),
  * the validation-preview endpoint (POST of src/app/api/discounts/validate/route.ts).

Modelling conventions:
  * The SQL tables behind the services become in-memory lists threaded through
    the operations explicitly; a SELECT is a lookup, an UPDATE maps over the
    list, an INSERT appends.  Row ids are unique in the real store (primary
    keys); theorems that need that fact take it as an explicit hypothesis.
  * Monetary values (JavaScript numbers) are modelled as integers: every
    property claimed is ordered-ring arithmetic on min/max/subtraction and is
    independent of the numeric representation.
  * Date-valued columns (createdAt, updatedAt, paidAt) play no role in any
    verified property and are elided from the records.
  * JavaScript truthiness tests on optional numeric fields are modelled
    explicitly (optNatTruthy, optIntTruthy below): undefined and 0 are falsy.
  * The nondeterministic simulated gateway (Math.random) becomes an explicit
    boolean parameter gatewayOk, and the generated payment-record id becomes
    an explicit parameter newRecordId.
  * HTTP error responses are (status, error) pairs exactly as produced by the
    handlers.
-/

namespace Pay

/-- JavaScript truthiness of an optional natural number field:
undefined and 0 are falsy. -/
def optNatTruthy : Option Nat → Bool
  | none => false
  | some n => !(n == 0)

/-- JavaScript truthiness of an optional integer (monetary) field:
undefined and 0 are falsy. -/
def optIntTruthy : Option Int → Bool
  | none => false
  | some n => !(n == 0)

/-- JavaScript string disjunction a || b : the empty string is falsy. -/
def jsOrString (a b : String) : String :=
  if a = "" then b else a

/-- JavaScript String.prototype.trim: strip leading and trailing whitespace.
Defined over the character list so that it evaluates inside the kernel. -/
def jsTrim (s : String) : String :=
  String.mk (((s.data.dropWhile Char.isWhitespace).reverse.dropWhile Char.isWhitespace).reverse)

/-- Order row (interface Order in src/lib/storage; Date columns elided). -/
structure Order where
  orderId : String
  paymentId : String
  amount : Int
  balance : Int
  status : String
  paymentMethod : String
  description : Option String
  userId : String
deriving DecidableEq, Repr

/-- Discount row (interface Discount in src/lib/storage; Date columns elided). -/
structure Discount where
  discountId : String
  code : String
  balance : Int
  isFullDiscount : Bool
  status : String
  description : Option String
  usageCount : Nat
  maxUsage : Option Nat
  minAmount : Option Int
deriving DecidableEq, Repr

/-- PaymentRecord row (interface PaymentRecord in src/lib/storage;
Date columns elided). -/
structure PaymentRecord where
  recordId : String
  paymentId : String
  orderId : String
  amount : Int
  paidAmount : Int
  discountAmount : Int
  paymentMethod : String
  userId : String
  discountId : String
  discountCode : String
  orderDescription : String
deriving DecidableEq, Repr

/-- An HTTP error response - NextResponse.json with success false:
the status code and the error message. -/
structure ErrResponse where
  status : Nat
  error : String
deriving DecidableEq, Repr

namespace OrderService

/-- OrderService.getOrder: SELECT * FROM orders WHERE order_id = $1. -/
def getOrder (orders : List Order) (orderId : String) : Option Order :=
  orders.find? (fun o => o.orderId == orderId)

/-- OrderService.updateOrder as invoked by the settlement orchestrator, with
updates status=paid, paymentMethod, balance.  The SQL UPDATE rewrites
the matching row; RETURNING yields the updated row, or null when no row
matched.  Returns the updated table and the returned row. -/
def updateOrderPaid (orders : List Order) (orderId : String)
    (paymentMethod : String) (balance : Int) : List Order × Option Order :=
  let updated := orders.map (fun o =>
    if o.orderId = orderId then
      { o with status := "paid", paymentMethod := paymentMethod, balance := balance }
    else o)
  (updated, updated.find? (fun o => o.orderId == orderId))

end OrderService

namespace DiscountService

/-- DiscountService.getDiscountByCode:
SELECT * FROM discounts WHERE code = $1 (case-sensitive exact match). -/
def getDiscountByCode (discounts : List Discount) (code : String) : Option Discount :=
  discounts.find? (fun d => d.code == code)

/-- The shape of the object returned by DiscountService.validateDiscount:
either valid true with the discount, or valid false with a message. -/
inductive ValidateDiscountResult where
  | invalid (message : String)
  | valid (discount : Discount)
deriving DecidableEq, Repr

/-- DiscountService.validateDiscount. The guards on maxUsage and minAmount are
JavaScript truthiness tests (discount.maxUsage && ...): an absent OR zero
field disables the corresponding check. -/
def validateDiscount (discounts : List Discount) (code : String)
    (orderAmount : Int) : ValidateDiscountResult :=
  match getDiscountByCode discounts code with
  | none => .invalid "优惠码不存在"
  | some discount =>
    if discount.status ≠ "active" then
      .invalid "优惠码已失效"
    else if optNatTruthy discount.maxUsage ∧ discount.maxUsage.getD 0 ≤ discount.usageCount then
      .invalid "优惠码使用次数已达上限"
    else if optIntTruthy discount.minAmount ∧ orderAmount < discount.minAmount.getD 0 then
      .invalid ("订单金额需满" ++ toString (discount.minAmount.getD 0) ++ "元")
    else
      .valid discount

/-- DiscountService.applyDiscount:
UPDATE discounts SET usage_count = usage_count + 1 WHERE discount_id = $1. -/
def applyDiscount (discounts : List Discount) (discountId : String) : List Discount :=
  discounts.map (fun d =>
    if d.discountId = discountId then { d with usageCount := d.usageCount + 1 } else d)

end DiscountService

namespace PaymentRecordService

/-- The record data passed to createPaymentRecord
(PaymentRecord without recordId and paidAt). -/
structure PaymentRecordData where
  paymentId : String
  orderId : String
  amount : Int
  paidAmount : Int
  discountAmount : Int
  paymentMethod : String
  userId : String
  discountId : String
  discountCode : String
  orderDescription : String
deriving DecidableEq, Repr

/-- PaymentRecordService.createPaymentRecord: generates a record id (passed in
explicitly here), INSERTs the row and returns it.  Returns the grown table
and the new row. -/
def createPaymentRecord (records : List PaymentRecord) (recordId : String)
    (data : PaymentRecordData) : List PaymentRecord × PaymentRecord :=
  let record : PaymentRecord :=
    { recordId := recordId
      paymentId := data.paymentId
      orderId := data.orderId
      amount := data.amount
      paidAmount := data.paidAmount
      discountAmount := data.discountAmount
      paymentMethod := data.paymentMethod
      userId := data.userId
      discountId := data.discountId
      discountCode := data.discountCode
      orderDescription := data.orderDescription }
  (records ++ [record], record)

end PaymentRecordService

/-- The persistent state the two routes read and mutate: the three tables. -/
structure DB where
  orders : List Order
  discounts : List Discount
  paymentRecords : List PaymentRecord
deriving DecidableEq, Repr

/-- The success payload of the payment route: NextResponse.json data on the
success path. -/
structure SettleSuccess where
  order : Option Order
  paymentRecord : PaymentRecord
  discount : Option Discount
  originalAmount : Int
  discountAmount : Int
  finalAmount : Int
  savings : Int
deriving DecidableEq, Repr

/-- The tail of the payment route after the discount phase: the simulated
gateway call, then (on gateway success) the order update, the payment-record
insert and the success payload.  discounts1 is the discount table as left by
the discount phase - on gateway failure it is committed as-is, which is
exactly the no-compensation gap of the source. -/
def gatewayAndCommit (db : DB) (orderId : String) (order : Order)
    (discounts1 : List Discount) (discount : Option Discount)
    (discountAmount finalAmount : Int) (discountCode : Option String)
    (paymentMethod userId : String) (gatewayOk : Bool) (newRecordId : String) :
    DB × Except ErrResponse SettleSuccess :=
  if gatewayOk = false then
    ({ db with discounts := discounts1 }, .error ⟨400, "Payment failed"⟩)
  else
    let updateResult := OrderService.updateOrderPaid db.orders orderId paymentMethod finalAmount
    let recordResult := PaymentRecordService.createPaymentRecord db.paymentRecords newRecordId
      { paymentId := order.paymentId
        orderId := order.orderId
        amount := order.amount
        paidAmount := finalAmount
        discountAmount := discountAmount
        paymentMethod := paymentMethod
        userId := userId
        discountId := (discount.map (fun d => d.discountId)).getD ""
        discountCode := (discountCode.map (fun s => jsTrim s)).getD ""
        orderDescription := order.description.getD "" }
    ({ orders := updateResult.1, discounts := discounts1, paymentRecords := recordResult.1 },
     .ok { order := updateResult.2
           paymentRecord := recordResult.2
           discount := discount
           originalAmount := order.amount
           discountAmount := discountAmount
           finalAmount := finalAmount
           savings := discountAmount })

/-- The POST handler of the payment route (settlement orchestrator).
Mirrors the source control flow: required-field check, order lookup,
status check, ownership check, optional discount phase (validation, amount
computation with the if/else on isFullDiscount kept verbatim, usage
increment), gateway simulation, commit. -/
def settle (db : DB) (orderId : String) (discountCode : Option String)
    (paymentMethod userId : String) (gatewayOk : Bool) (newRecordId : String) :
    DB × Except ErrResponse SettleSuccess :=
  if orderId = "" ∨ paymentMethod = "" ∨ userId = "" then
    (db, .error ⟨400, "OrderId, paymentMethod and userId are required"⟩)
  else
    match OrderService.getOrder db.orders orderId with
    | none => (db, .error ⟨404, "Order not found"⟩)
    | some order =>
      if order.status ≠ "pending" then
        (db, .error ⟨400, "Order is not pending"⟩)
      else if order.userId ≠ userId then
        (db, .error ⟨403, "Unauthorized"⟩)
      else
        match discountCode with
        | none =>
          gatewayAndCommit db orderId order db.discounts none 0 order.amount
            discountCode paymentMethod userId gatewayOk newRecordId
        | some rawCode =>
          if rawCode = "" ∨ jsTrim rawCode = "" then
            gatewayAndCommit db orderId order db.discounts none 0 order.amount
              discountCode paymentMethod userId gatewayOk newRecordId
          else
            match DiscountService.validateDiscount db.discounts (jsTrim rawCode) order.amount with
            | .invalid message =>
              (db, .error ⟨400, jsOrString message "Invalid discount code"⟩)
            | .valid discount =>
              let amounts :=
                if discount.isFullDiscount then
                  (min discount.balance order.amount,
                   max 0 (order.amount - min discount.balance order.amount))
                else
                  (min discount.balance order.amount,
                   max 0 (order.amount - min discount.balance order.amount))
              gatewayAndCommit db orderId order
                (DiscountService.applyDiscount db.discounts discount.discountId)
                (some discount) amounts.1 amounts.2
                discountCode paymentMethod userId gatewayOk newRecordId

/-- The success payload of the validation-preview endpoint. -/
structure PreviewSuccess where
  discount : Discount
  originalAmount : Int
  discountAmount : Int
  finalAmount : Int
  savings : Int
deriving DecidableEq, Repr

/-- The POST handler of src/app/api/discounts/validate/route.ts: required-field
check (code falsy or amount undefined), positivity check, validation, and the
amount computation with the if/else on isFullDiscount kept verbatim.  The
handler issues no store mutation, so the state it returns is the state it was
given. -/
def validatePreviewRoute (db : DB) (code : Option String) (amount : Option Int) :
    DB × Except ErrResponse PreviewSuccess :=
  match code, amount with
  | none, _ => (db, .error ⟨400, "Code and amount are required"⟩)
  | some _, none => (db, .error ⟨400, "Code and amount are required"⟩)
  | some c, some amt =>
    if c = "" then
      (db, .error ⟨400, "Code and amount are required"⟩)
    else if amt ≤ 0 then
      (db, .error ⟨400, "Amount must be greater than 0"⟩)
    else
      match DiscountService.validateDiscount db.discounts (jsTrim c) amt with
      | .invalid message =>
        (db, .error ⟨400, jsOrString message "Invalid discount code"⟩)
      | .valid discount =>
        let amounts :=
          if discount.isFullDiscount then
            (min discount.balance amt, max 0 (amt - min discount.balance amt))
          else
            (min discount.balance amt, max 0 (amt - min discount.balance amt))
        (db, .ok { discount := discount
                   originalAmount := amt
                   discountAmount := amounts.1
                   finalAmount := amounts.2
                   savings := amounts.1 })

/-- Redeemability as the specification words it: maxUsage UNSET or
usageCount < maxUsage, and minAmount UNSET or orderAmount ≥ minAmount
(option-presence semantics, not JavaScript truthiness).  Written to be
compared against validateDiscount. -/
def specRedeemable (discounts : List Discount) (code : String)
    (orderAmount : Int) : Bool :=
  match DiscountService.getDiscountByCode discounts code with
  | none => false
  | some d =>
    d.status == "active" &&
    (d.maxUsage == none || decide (d.usageCount < d.maxUsage.getD 0)) &&
    (d.minAmount == none || decide (d.minAmount.getD 0 ≤ orderAmount))


/-- Projection of a settlement outcome to the computed amounts
(discountAmount, finalAmount, savings): used to state that the
isFullDiscount flag has no computational effect. -/
def settleNumbers : Except ErrResponse SettleSuccess → Except ErrResponse (Int × Int × Int) :=
  fun r => r.map (fun s => (s.discountAmount, s.finalAmount, s.savings))

/-- Projection of a preview outcome to the computed amounts
(originalAmount, discountAmount, finalAmount, savings). -/
def previewNumbers : Except ErrResponse PreviewSuccess → Except ErrResponse (Int × Int × Int × Int) :=
  fun r => r.map (fun s => (s.originalAmount, s.discountAmount, s.finalAmount, s.savings))

/-- Rewrite every discount record of a table, changing only its isFullDiscount
flag (to an arbitrary per-record value). -/
def setFullFlag (f : Discount → Bool) (discounts : List Discount) : List Discount :=
  discounts.map (fun d => { d with isFullDiscount := f d })


/-! Concrete store contents used by the witnesses and counterexamples. -/

/-- A pending order owned by user u1. -/
def cOrder : Order :=
  { orderId := "o1"
    paymentId := "p1"
    amount := 100
    balance := 100
    status := "pending"
    paymentMethod := ""
    description := some "test order"
    userId := "u1" }

/-- An already paid order. -/
def cOrderPaid : Order :=
  { orderId := "o2"
    paymentId := "p2"
    amount := 50
    balance := 50
    status := "paid"
    paymentMethod := "card"
    description := none
    userId := "u1" }

/-- An active fixed-amount discount of balance 20. -/
def cDiscount : Discount :=
  { discountId := "d1"
    code := "SAVE20"
    balance := 20
    isFullDiscount := false
    status := "active"
    description := none
    usageCount := 0
    maxUsage := some 3
    minAmount := none }

/-- An active discount whose maxUsage and minAmount are both explicitly 0. -/
def cZeroDiscount : Discount :=
  { discountId := "d2"
    code := "ZERO"
    balance := 5
    isFullDiscount := false
    status := "active"
    description := none
    usageCount := 3
    maxUsage := some 0
    minAmount := some 0 }

/-- The concrete store. -/
def cDB : DB :=
  { orders := [cOrder, cOrderPaid]
    discounts := [cDiscount, cZeroDiscount]
    paymentRecords := [] }

/-- cOrder after the successful settlement with code SAVE20. -/
def cPaidOrder : Order :=
  { cOrder with status := "paid", paymentMethod := "card", balance := 80 }

/-- The payment record written by that settlement. -/
def cRecord : PaymentRecord :=
  { recordId := "r1"
    paymentId := "p1"
    orderId := "o1"
    amount := 100
    paidAmount := 80
    discountAmount := 20
    paymentMethod := "card"
    userId := "u1"
    discountId := "d1"
    discountCode := "SAVE20"
    orderDescription := "test order" }

/-- The success payload of that settlement. -/
def cSettled : SettleSuccess :=
  { order := some cPaidOrder
    paymentRecord := cRecord
    discount := some cDiscount
    originalAmount := 100
    discountAmount := 20
    finalAmount := 80
    savings := 20 }

/-- The store after that settlement. -/
def cDB2 : DB :=
  { orders := [cPaidOrder, cOrderPaid]
    discounts := [{ cDiscount with usageCount := 1 }, cZeroDiscount]
    paymentRecords := [cRecord] }


section Helpers

variable {db db2 : DB} {order : Order} {r : SettleSuccess}

theorem gatewayAndCommit_false_eq (db : DB) (orderId : String) (order : Order)
    (discounts1 : List Discount) (discount : Option Discount) (da fa : Int)
    (dc : Option String) (pm uid rid : String) :
    gatewayAndCommit db orderId order discounts1 discount da fa dc pm uid false rid =
      ({ db with discounts := discounts1 }, .error ⟨400, "Payment failed"⟩) := rfl

theorem gatewayAndCommit_true_eq (db : DB) (orderId : String) (order : Order)
    (discounts1 : List Discount) (discount : Option Discount) (da fa : Int)
    (dc : Option String) (pm uid rid : String) :
    gatewayAndCommit db orderId order discounts1 discount da fa dc pm uid true rid =
      ({ orders := (OrderService.updateOrderPaid db.orders orderId pm fa).1
         discounts := discounts1
         paymentRecords := db.paymentRecords ++
           [{ recordId := rid
              paymentId := order.paymentId
              orderId := order.orderId
              amount := order.amount
              paidAmount := fa
              discountAmount := da
              paymentMethod := pm
              userId := uid
              discountId := (discount.map (fun d => d.discountId)).getD ""
              discountCode := (dc.map (fun s => jsTrim s)).getD ""
              orderDescription := order.description.getD "" }] },
       .ok { order := (OrderService.updateOrderPaid db.orders orderId pm fa).2
             paymentRecord :=
               { recordId := rid
                 paymentId := order.paymentId
                 orderId := order.orderId
                 amount := order.amount
                 paidAmount := fa
                 discountAmount := da
                 paymentMethod := pm
                 userId := uid
                 discountId := (discount.map (fun d => d.discountId)).getD ""
                 discountCode := (dc.map (fun s => jsTrim s)).getD ""
                 orderDescription := order.description.getD "" }
             discount := discount
             originalAmount := order.amount
             discountAmount := da
             finalAmount := fa
             savings := da }) := rfl

theorem gatewayAndCommit_ok_inv {orderId : String}
    {discounts1 : List Discount} {discount : Option Discount} {da fa : Int}
    {dc : Option String} {pm uid : String} {gw : Bool} {rid : String}
    (h : gatewayAndCommit db orderId order discounts1 discount da fa dc pm uid gw rid =
      (db2, .ok r)) :
    gw = true ∧
    r = { order := (OrderService.updateOrderPaid db.orders orderId pm fa).2
          paymentRecord :=
            { recordId := rid
              paymentId := order.paymentId
              orderId := order.orderId
              amount := order.amount
              paidAmount := fa
              discountAmount := da
              paymentMethod := pm
              userId := uid
              discountId := (discount.map (fun d => d.discountId)).getD ""
              discountCode := (dc.map (fun s => jsTrim s)).getD ""
              orderDescription := order.description.getD "" }
          discount := discount
          originalAmount := order.amount
          discountAmount := da
          finalAmount := fa
          savings := da } ∧
    db2 = { orders := (OrderService.updateOrderPaid db.orders orderId pm fa).1
            discounts := discounts1
            paymentRecords := db.paymentRecords ++ [r.paymentRecord] } := by
  cases gw with
  | false =>
    rw [gatewayAndCommit_false_eq] at h
    exact absurd (congrArg Prod.snd h) (by simp)
  | true =>
    rw [gatewayAndCommit_true_eq] at h
    rw [Prod.mk.injEq] at h
    obtain ⟨hdb, hr⟩ := h
    have hr2 := Except.ok.inj hr
    refine ⟨rfl, hr2.symm, ?_⟩
    rw [← hdb, ← hr2]


theorem settle_ok_inv {orderId : String} {discountCode : Option String}
    {pm uid : String} {gw : Bool} {rid : String} {db2 : DB} {r : SettleSuccess} {db : DB}
    (h : settle db orderId discountCode pm uid gw rid = (db2, .ok r)) :
    ∃ order, OrderService.getOrder db.orders orderId = some order ∧
      order.status = "pending" ∧ order.userId = uid ∧ gw = true ∧
      r.originalAmount = order.amount ∧
      r.savings = r.discountAmount ∧
      r.paymentRecord.amount = order.amount ∧
      r.paymentRecord.paidAmount = r.finalAmount ∧
      r.paymentRecord.discountAmount = r.discountAmount ∧
      db2.orders = (OrderService.updateOrderPaid db.orders orderId pm r.finalAmount).1 ∧
      db2.paymentRecords = db.paymentRecords ++ [r.paymentRecord] ∧
      ((r.discount = none ∧ r.discountAmount = 0 ∧ r.finalAmount = order.amount ∧
        db2.discounts = db.discounts) ∨
       (∃ d rawCode, discountCode = some rawCode ∧ r.discount = some d ∧
         DiscountService.validateDiscount db.discounts (jsTrim rawCode) order.amount = .valid d ∧
         r.discountAmount = min d.balance order.amount ∧
         r.finalAmount = max 0 (order.amount - min d.balance order.amount) ∧
         db2.discounts = DiscountService.applyDiscount db.discounts d.discountId)) := by
  unfold settle at h
  split at h
  · exact absurd (congrArg Prod.snd h) (by simp)
  split at h
  · exact absurd (congrArg Prod.snd h) (by simp)
  rename_i order heq
  split at h
  · exact absurd (congrArg Prod.snd h) (by simp)
  rename_i hstat
  split at h
  · exact absurd (congrArg Prod.snd h) (by simp)
  rename_i huser
  rw [not_not] at hstat huser
  split at h
  · -- discountCode = none
    obtain ⟨hgw, hr, hdb2⟩ := gatewayAndCommit_ok_inv h
    subst hgw hdb2 hr
    exact ⟨order, heq, hstat, huser, rfl, rfl, rfl, rfl, rfl, rfl, rfl, rfl,
      Or.inl ⟨rfl, rfl, rfl, rfl⟩⟩
  rename_i rawCode
  split at h
  · -- blank code
    obtain ⟨hgw, hr, hdb2⟩ := gatewayAndCommit_ok_inv h
    subst hgw hdb2 hr
    exact ⟨order, heq, hstat, huser, rfl, rfl, rfl, rfl, rfl, rfl, rfl, rfl,
      Or.inl ⟨rfl, rfl, rfl, rfl⟩⟩
  split at h
  · exact absurd (congrArg Prod.snd h) (by simp)
  rename_i discount heqv
  simp only [ite_self] at h
  obtain ⟨hgw, hr, hdb2⟩ := gatewayAndCommit_ok_inv h
  subst hgw hdb2 hr
  exact ⟨order, heq, hstat, huser, rfl, rfl, rfl, rfl, rfl, rfl, rfl, rfl,
    Or.inr ⟨discount, rawCode, rfl, rfl, heqv, rfl, rfl, rfl⟩⟩


theorem validatePreviewRoute_ok_inv {code : Option String} {amount : Option Int}
    {p : PreviewSuccess} {db : DB}
    (h : (validatePreviewRoute db code amount).2 = .ok p) :
    ∃ c amt, code = some c ∧ amount = some amt ∧ c ≠ "" ∧ 0 < amt ∧
      DiscountService.validateDiscount db.discounts (jsTrim c) amt = .valid p.discount ∧
      p.originalAmount = amt ∧
      p.discountAmount = min p.discount.balance amt ∧
      p.finalAmount = max 0 (amt - min p.discount.balance amt) ∧
      p.savings = p.discountAmount := by
  unfold validatePreviewRoute at h
  split at h
  · simp at h
  · simp at h
  rename_i c amt
  split at h
  · simp at h
  rename_i hc
  split at h
  · simp at h
  rename_i hamt
  split at h
  · simp at h
  rename_i discount heqv
  simp only [ite_self] at h
  have hp := Except.ok.inj h
  subst hp
  exact ⟨c, amt, rfl, rfl, hc, by omega, heqv, rfl, rfl, rfl, rfl⟩

theorem validateDiscount_valid_inv {ds : List Discount} {code : String} {amt : Int}
    {d : Discount}
    (h : DiscountService.validateDiscount ds code amt = .valid d) :
    DiscountService.getDiscountByCode ds code = some d ∧ d.status = "active" ∧
    ¬(optNatTruthy d.maxUsage = true ∧ d.maxUsage.getD 0 ≤ d.usageCount) ∧
    ¬(optIntTruthy d.minAmount = true ∧ amt < d.minAmount.getD 0) := by
  unfold DiscountService.validateDiscount at h
  split at h
  · simp at h
  rename_i d0 heq
  split at h
  · simp at h
  rename_i h1
  split at h
  · simp at h
  rename_i h2
  split at h
  · simp at h
  rename_i h3
  have hd := DiscountService.ValidateDiscountResult.valid.inj h
  subst hd
  rw [not_not] at h1
  exact ⟨heq, h1, by simpa using h2, by simpa using h3⟩

theorem validateDiscount_valid_of {ds : List Discount} {code : String} {amt : Int}
    {d : Discount}
    (heq : DiscountService.getDiscountByCode ds code = some d)
    (h1 : d.status = "active")
    (h2 : ¬(optNatTruthy d.maxUsage = true ∧ d.maxUsage.getD 0 ≤ d.usageCount))
    (h3 : ¬(optIntTruthy d.minAmount = true ∧ amt < d.minAmount.getD 0)) :
    DiscountService.validateDiscount ds code amt = .valid d := by
  simp only [DiscountService.validateDiscount, heq]
  rw [if_neg (by simp [h1]), if_neg h2, if_neg h3]

theorem clamp_facts (a b : Int) :
    0 ≤ max 0 (a - min b a) ∧ max 0 (a - min b a) + min b a = a ∧
    (0 < a → (max 0 (a - min b a) = 0 ↔ a ≤ b)) := by
  omega

theorem find?_applyDiscount {ds : List Discount} {d : Discount}
    (hmem : d ∈ ds)
    (huniq : ds.Pairwise (fun a b => a.discountId ≠ b.discountId)) :
    (DiscountService.applyDiscount ds d.discountId).find?
        (fun x => x.discountId == d.discountId) =
      some { d with usageCount := d.usageCount + 1 } := by
  induction ds with
  | nil => cases hmem
  | cons hd tl ih =>
    rw [List.pairwise_cons] at huniq
    obtain ⟨hhd, htl⟩ := huniq
    unfold DiscountService.applyDiscount
    rw [List.map_cons]
    by_cases hid : hd.discountId = d.discountId
    · have hde : hd = d := by
        rcases List.mem_cons.mp hmem with h | h
        · exact h.symm
        · exact absurd hid (hhd d h)
      subst hde
      rw [if_pos hid]
      rw [List.find?_cons_of_pos _ (by simp)]
    · rw [if_neg hid]
      rw [List.find?_cons_of_neg _ (by simp [hid])]
      have hmem2 : d ∈ tl := by
        rcases List.mem_cons.mp hmem with h | h
        · exact absurd (h ▸ rfl) hid
        · exact h
      exact ih hmem2 htl

theorem settleNumbers_gatewayAndCommit (db : DB) (orderId : String) (order : Order)
    (discounts1 : List Discount) (discount : Option Discount) (da fa : Int)
    (dc : Option String) (pm uid : String) (gw : Bool) (rid : String) :
    settleNumbers (gatewayAndCommit db orderId order discounts1 discount da fa
        dc pm uid gw rid).2 =
      if gw = false then (.error ⟨400, "Payment failed"⟩) else .ok (da, fa, da) := by
  cases gw <;> rfl


theorem settleNumbers_error (e : ErrResponse) :
    settleNumbers (.error e) = .error e := rfl

theorem settleNumbers_ok (s : SettleSuccess) :
    settleNumbers (.ok s) = .ok (s.discountAmount, s.finalAmount, s.savings) := rfl

theorem previewNumbers_error (e : ErrResponse) :
    previewNumbers (.error e) = .error e := rfl

theorem previewNumbers_ok (s : PreviewSuccess) :
    previewNumbers (.ok s) =
      .ok (s.originalAmount, s.discountAmount, s.finalAmount, s.savings) := rfl

theorem getDiscountByCode_setFullFlag (f : Discount → Bool) (ds : List Discount)
    (code : String) :
    DiscountService.getDiscountByCode (setFullFlag f ds) code =
      (DiscountService.getDiscountByCode ds code).map
        (fun d => { d with isFullDiscount := f d }) := by
  unfold DiscountService.getDiscountByCode setFullFlag
  rw [List.find?_map]
  rfl

theorem validateDiscount_setFullFlag (f : Discount → Bool) (ds : List Discount)
    (code : String) (amt : Int) :
    DiscountService.validateDiscount (setFullFlag f ds) code amt =
      match DiscountService.validateDiscount ds code amt with
      | .invalid m => .invalid m
      | .valid d => .valid { d with isFullDiscount := f d } := by
  unfold DiscountService.validateDiscount
  rw [getDiscountByCode_setFullFlag]
  cases DiscountService.getDiscountByCode ds code with
  | none => rfl
  | some d =>
    obtain ⟨i, co, b, fl, st, de, uc, mu, ma⟩ := d
    by_cases hst : st ≠ "active"
    · simp [hst]
    by_cases hmu : optNatTruthy mu = true ∧ mu.getD 0 ≤ uc
    · simp [hst, hmu]
    by_cases hma : optIntTruthy ma = true ∧ amt < ma.getD 0
    · simp [hst, hmu, hma]
    · simp [hst, hmu, hma]


theorem validatePreviewRoute_fst (db : DB) (code : Option String)
    (amount : Option Int) :
    (validatePreviewRoute db code amount).1 = db := by
  unfold validatePreviewRoute
  repeat first | rfl | split

end Helpers

/-- Claim C1: for every settlement or validation-preview call that applies a
valid discount to an order amount greater than 0, the computed discountAmount
equals min(discount.balance, orderAmount), the computed finalAmount equals
max(0, orderAmount - discountAmount) - hence finalAmount is never negative and
is 0 exactly when discount.balance ≥ orderAmount - and savings equals
discountAmount. -/
theorem claim_C1_discount_computation :
    (∀ (db db2 : DB) (orderId : String) (discountCode : Option String)
        (pm uid : String) (gw : Bool) (rid : String) (r : SettleSuccess) (d : Discount),
      settle db orderId discountCode pm uid gw rid = (db2, .ok r) →
      r.discount = some d →
      0 < r.originalAmount →
      r.discountAmount = min d.balance r.originalAmount ∧
      r.finalAmount = max 0 (r.originalAmount - r.discountAmount) ∧
      r.savings = r.discountAmount ∧
      0 ≤ r.finalAmount ∧
      (r.finalAmount = 0 ↔ r.originalAmount ≤ d.balance)) ∧
    (∀ (db : DB) (code : Option String) (amount : Option Int) (p : PreviewSuccess),
      (validatePreviewRoute db code amount).2 = .ok p →
      0 < p.originalAmount →
      p.discountAmount = min p.discount.balance p.originalAmount ∧
      p.finalAmount = max 0 (p.originalAmount - p.discountAmount) ∧
      p.savings = p.discountAmount ∧
      0 ≤ p.finalAmount ∧
      (p.finalAmount = 0 ↔ p.originalAmount ≤ p.discount.balance)) := by
  constructor
  · intro db db2 orderId discountCode pm uid gw rid r d h hd hpos
    obtain ⟨order, _, _, _, _, horig, hsav, _, _, _, _, _, hcase⟩ := settle_ok_inv h
    rcases hcase with ⟨hnone, _, _, _⟩ | ⟨d2, rawCode, _, hsome, _, hda, hfa, _⟩
    · rw [hnone] at hd; cases hd
    · rw [hsome] at hd
      have hd2 : d2 = d := Option.some.inj hd
      subst hd2
      obtain ⟨h1, h2, h3⟩ := clamp_facts order.amount d2.balance
      refine ⟨by rw [horig, hda], by rw [hfa, hda, horig], hsav,
        by rw [hfa]; exact h1, ?_⟩
      rw [hfa, horig]
      exact h3 (by rwa [horig] at hpos)
  · intro db code amount p h hpos
    obtain ⟨c, amt, _, _, _, _, _, horig, hda, hfa, hsav⟩ := validatePreviewRoute_ok_inv h
    obtain ⟨h1, h2, h3⟩ := clamp_facts amt p.discount.balance
    subst horig
    exact ⟨hda, by rw [hfa, hda], hsav, by rw [hfa]; exact h1,
      by rw [hfa]; exact h3 hpos⟩

/-- Witness for claim C1 at a concrete settlement and a concrete preview. -/
theorem claim_C1_witness :
    (cSettled.discountAmount = min cDiscount.balance cSettled.originalAmount ∧
     cSettled.finalAmount = max 0 (cSettled.originalAmount - cSettled.discountAmount) ∧
     cSettled.savings = cSettled.discountAmount ∧
     0 ≤ cSettled.finalAmount ∧
     (cSettled.finalAmount = 0 ↔ cSettled.originalAmount ≤ cDiscount.balance)) :=
  claim_C1_discount_computation.1 cDB cDB2 "o1" (some "SAVE20") "card" "u1" true "r1"
    cSettled cDiscount (by rfl) (by rfl) (by decide)

/-- Claim C3: every successful settlement writes a PaymentRecord with
paidAmount + discountAmount = amount, where amount is the original order
amount; with no discount (discountAmount 0), paidAmount = amount. -/
theorem claim_C3_amount_conservation :
    ∀ (db db2 : DB) (orderId : String) (discountCode : Option String)
      (pm uid : String) (gw : Bool) (rid : String) (r : SettleSuccess),
      settle db orderId discountCode pm uid gw rid = (db2, .ok r) →
      r.paymentRecord.paidAmount + r.paymentRecord.discountAmount =
        r.paymentRecord.amount ∧
      (∀ order, OrderService.getOrder db.orders orderId = some order →
        r.paymentRecord.amount = order.amount) ∧
      (r.discountAmount = 0 →
        r.paymentRecord.paidAmount = r.paymentRecord.amount) := by
  intro db db2 orderId discountCode pm uid gw rid r h
  obtain ⟨order, hord, _, _, _, _, _, hram, hrpaid, hrda, _, _, hcase⟩ := settle_ok_inv h
  have hda_eq : r.paymentRecord.discountAmount = r.discountAmount := hrda
  have hsum : r.paymentRecord.paidAmount + r.paymentRecord.discountAmount =
      r.paymentRecord.amount := by
    rcases hcase with ⟨_, hda0, hfa, _⟩ | ⟨d, rawCode, _, _, _, hda, hfa, _⟩
    · rw [hrpaid, hrda, hram, hfa, hda0]; omega
    · rw [hrpaid, hrda, hram, hfa, hda]
      exact (clamp_facts order.amount d.balance).2.1
  refine ⟨hsum, ?_, ?_⟩
  · intro order2 hord2
    rw [hord2] at hord
    rw [hram, Option.some.inj hord]
  · intro hda0
    rw [hda0] at hda_eq
    omega


/-- Witness for claim C3 at the concrete settlement. -/
theorem claim_C3_witness :
    cSettled.paymentRecord.paidAmount + cSettled.paymentRecord.discountAmount =
      cSettled.paymentRecord.amount ∧
    cSettled.paymentRecord.amount = cOrder.amount :=
  have h := claim_C3_amount_conservation cDB cDB2 "o1" (some "SAVE20") "card" "u1"
    true "r1" cSettled (by rfl)
  ⟨h.1, h.2.1 cOrder (by rfl)⟩

/-- Claim C4: settlement runs its precondition checks in a fixed order with the
first failure winning: missing order gives NotFound (404, order not found);
then a status other than pending gives InvalidState (400, order is not
pending, covering paid and cancelled alike); then a foreign userId gives
Forbidden (403, unauthorized); only then does the discount phase begin. -/
theorem claim_C4_precondition_order :
    ∀ (db : DB) (orderId : String) (discountCode : Option String)
      (pm uid : String) (gw : Bool) (rid : String),
      orderId ≠ "" → pm ≠ "" → uid ≠ "" →
      (OrderService.getOrder db.orders orderId = none →
        settle db orderId discountCode pm uid gw rid =
          (db, .error ⟨404, "Order not found"⟩)) ∧
      (∀ order, OrderService.getOrder db.orders orderId = some order →
        order.status ≠ "pending" →
        settle db orderId discountCode pm uid gw rid =
          (db, .error ⟨400, "Order is not pending"⟩)) ∧
      (∀ order, OrderService.getOrder db.orders orderId = some order →
        order.status = "pending" → order.userId ≠ uid →
        settle db orderId discountCode pm uid gw rid =
          (db, .error ⟨403, "Unauthorized"⟩)) := by
  intro db orderId discountCode pm uid gw rid h1 h2 h3
  have hreq : ¬(orderId = "" ∨ pm = "" ∨ uid = "") := by
    push_neg
    exact ⟨h1, h2, h3⟩
  refine ⟨?_, ?_, ?_⟩
  · intro hnone
    simp [settle, hreq, hnone]
  · intro order hsome hstat
    simp [settle, hreq, hsome, hstat]
  · intro order hsome hstat huser
    simp [settle, hreq, hsome, hstat, huser]

/-- Witness for claim C4: the three failure shapes at concrete calls. -/
theorem claim_C4_witness :
    settle cDB "missing" (some "SAVE20") "card" "u1" true "r1" =
      (cDB, .error ⟨404, "Order not found"⟩) ∧
    settle cDB "o2" (some "SAVE20") "card" "u1" true "r1" =
      (cDB, .error ⟨400, "Order is not pending"⟩) ∧
    settle cDB "o1" (some "SAVE20") "card" "u9" true "r1" =
      (cDB, .error ⟨403, "Unauthorized"⟩) :=
  ⟨(claim_C4_precondition_order cDB "missing" (some "SAVE20") "card" "u1" true "r1"
      (by decide) (by decide) (by decide)).1 (by rfl),
   (claim_C4_precondition_order cDB "o2" (some "SAVE20") "card" "u1" true "r1"
      (by decide) (by decide) (by decide)).2.1 cOrderPaid (by rfl) (by decide),
   (claim_C4_precondition_order cDB "o1" (some "SAVE20") "card" "u9" true "r1"
      (by decide) (by decide) (by decide)).2.2 cOrder (by rfl) (by decide) (by decide)⟩

/-- Claim C5: every settlement failure up to and including discount validation
is side-effect free: the NotFound, InvalidState, Forbidden and
discount-rejection failure paths all return the store exactly as given - no
PaymentRecord is created and no discount usage is incremented. -/
theorem claim_C5_clean_aborts :
    ∀ (db : DB) (orderId : String) (discountCode : Option String)
      (pm uid : String) (gw : Bool) (rid : String),
      orderId ≠ "" → pm ≠ "" → uid ≠ "" →
      (OrderService.getOrder db.orders orderId = none →
        settle db orderId discountCode pm uid gw rid =
          (db, .error ⟨404, "Order not found"⟩)) ∧
      (∀ order, OrderService.getOrder db.orders orderId = some order →
        order.status ≠ "pending" →
        settle db orderId discountCode pm uid gw rid =
          (db, .error ⟨400, "Order is not pending"⟩)) ∧
      (∀ order, OrderService.getOrder db.orders orderId = some order →
        order.status = "pending" → order.userId ≠ uid →
        settle db orderId discountCode pm uid gw rid =
          (db, .error ⟨403, "Unauthorized"⟩)) ∧
      (∀ order rawCode message,
        OrderService.getOrder db.orders orderId = some order →
        order.status = "pending" → order.userId = uid →
        discountCode = some rawCode → rawCode ≠ "" → jsTrim rawCode ≠ "" →
        DiscountService.validateDiscount db.discounts (jsTrim rawCode) order.amount =
          .invalid message →
        settle db orderId discountCode pm uid gw rid =
          (db, .error ⟨400, jsOrString message "Invalid discount code"⟩)) := by
  intro db orderId discountCode pm uid gw rid h1 h2 h3
  have hreq : ¬(orderId = "" ∨ pm = "" ∨ uid = "") := by
    push_neg
    exact ⟨h1, h2, h3⟩
  refine ⟨?_, ?_, ?_, ?_⟩
  · intro hnone
    simp [settle, hreq, hnone]
  · intro order hsome hstat
    simp [settle, hreq, hsome, hstat]
  · intro order hsome hstat huser
    simp [settle, hreq, hsome, hstat, huser]
  · intro order rawCode message hsome hstat huser hdc hrc1 hrc2 hinv
    subst hdc
    have hblank : ¬(rawCode = "" ∨ jsTrim rawCode = "") := by
      push_neg
      exact ⟨hrc1, hrc2⟩
    simp [settle, hreq, hsome, hstat, huser, hblank, hinv]

/-- Witness for claim C5: each clean-abort path at a concrete call, including
a discount rejection - the store comes back exactly as it went in. -/
theorem claim_C5_witness :
    settle cDB "nope" none "card" "u1" true "r1" =
      (cDB, .error ⟨404, "Order not found"⟩) ∧
    settle cDB "o2" none "card" "u1" true "r1" =
      (cDB, .error ⟨400, "Order is not pending"⟩) ∧
    settle cDB "o1" none "card" "u7" true "r1" =
      (cDB, .error ⟨403, "Unauthorized"⟩) ∧
    settle cDB "o1" (some "MISSING") "card" "u1" true "r1" =
      (cDB, .error ⟨400, jsOrString "优惠码不存在" "Invalid discount code"⟩) :=
  ⟨(claim_C5_clean_aborts cDB "nope" none "card" "u1" true "r1"
      (by decide) (by decide) (by decide)).1 (by rfl),
   (claim_C5_clean_aborts cDB "o2" none "card" "u1" true "r1"
      (by decide) (by decide) (by decide)).2.1 cOrderPaid (by rfl) (by decide),
   (claim_C5_clean_aborts cDB "o1" none "card" "u7" true "r1"
      (by decide) (by decide) (by decide)).2.2.1 cOrder (by rfl) (by decide) (by decide),
   (claim_C5_clean_aborts cDB "o1" (some "MISSING") "card" "u1" true "r1"
      (by decide) (by decide) (by decide)).2.2.2 cOrder "MISSING" "优惠码不存在"
      (by rfl) (by decide) (by decide) (by rfl) (by decide) (by decide) (by rfl)⟩


/-- Claim C2: when a non-blank discount code validates during settlement and
the simulated gateway then fails, settlement aborts with PaymentFailed, but the
discount usage increment (by exactly 1) has already been committed and is not
rolled back, while the order table and the payment-record table are untouched. -/
theorem claim_C2_no_compensation :
    ∀ (db : DB) (orderId rawCode pm uid rid : String) (order : Order) (d : Discount),
      orderId ≠ "" → pm ≠ "" → uid ≠ "" →
      OrderService.getOrder db.orders orderId = some order →
      order.status = "pending" → order.userId = uid →
      rawCode ≠ "" → jsTrim rawCode ≠ "" →
      DiscountService.validateDiscount db.discounts (jsTrim rawCode) order.amount =
        .valid d →
      settle db orderId (some rawCode) pm uid false rid =
        ({ db with discounts := DiscountService.applyDiscount db.discounts d.discountId },
         .error ⟨400, "Payment failed"⟩) ∧
      DiscountService.applyDiscount db.discounts d.discountId =
        db.discounts.map (fun x =>
          if x.discountId = d.discountId then
            { x with usageCount := x.usageCount + 1 }
          else x) := by
  intro db orderId rawCode pm uid rid order d h1 h2 h3 hsome hstat huser hrc1 hrc2 hvalid
  have hreq : ¬(orderId = "" ∨ pm = "" ∨ uid = "") := by
    push_neg
    exact ⟨h1, h2, h3⟩
  have hblank : ¬(rawCode = "" ∨ jsTrim rawCode = "") := by
    push_neg
    exact ⟨hrc1, hrc2⟩
  refine ⟨?_, rfl⟩
  simp [settle, hreq, hsome, hstat, huser, hblank, hvalid,
    gatewayAndCommit_false_eq]

/-- Witness for claim C2: the concrete failed-gateway settlement leaves the
usage increment committed and everything else untouched. -/
theorem claim_C2_witness :
    settle cDB "o1" (some "SAVE20") "card" "u1" false "r1" =
      ({ cDB with
          discounts := DiscountService.applyDiscount cDB.discounts cDiscount.discountId },
       .error ⟨400, "Payment failed"⟩) :=
  (claim_C2_no_compensation cDB "o1" "SAVE20" "card" "u1" "r1" cOrder cDiscount
    (by decide) (by decide) (by decide) (by rfl) (by decide) (by decide)
    (by decide) (by decide) (by rfl)).1


/-- Claim C6: the discount computation is insensitive to the isFullDiscount
flag: rewriting every stored discount record with an arbitrary new flag value
(the records then differ only in isFullDiscount) changes neither the
discountAmount, finalAmount and savings computed by the settlement
orchestrator nor those computed by the validation-preview endpoint, and the
success or failure outcome stays the same. -/
theorem claim_C6_flag_insensitive :
    ∀ (f : Discount → Bool) (db : DB) (code : Option String) (amount : Option Int)
      (orderId : String) (discountCode : Option String) (pm uid : String)
      (gw : Bool) (rid : String),
      previewNumbers (validatePreviewRoute
          { db with discounts := setFullFlag f db.discounts } code amount).2 =
        previewNumbers (validatePreviewRoute db code amount).2 ∧
      settleNumbers (settle { db with discounts := setFullFlag f db.discounts }
          orderId discountCode pm uid gw rid).2 =
        settleNumbers (settle db orderId discountCode pm uid gw rid).2 := by
  intro f db code amount orderId discountCode pm uid gw rid
  constructor
  · cases code with
    | none => rfl
    | some c =>
      cases amount with
      | none => rfl
      | some amt =>
        by_cases hc : c = ""
        · simp [validatePreviewRoute, hc]
        by_cases hamt : amt ≤ 0
        · simp [validatePreviewRoute, hc, hamt]
        simp only [validatePreviewRoute, if_neg hc, if_neg hamt]
        rw [validateDiscount_setFullFlag]
        cases hv : DiscountService.validateDiscount db.discounts (jsTrim c) amt with
        | invalid m => rfl
        | valid d =>
          obtain ⟨i, co, b, fl, st, de, uc, mu, ma⟩ := d
          simp [previewNumbers_ok, ite_self]
  · by_cases hreq : orderId = "" ∨ pm = "" ∨ uid = ""
    · simp [settle, hreq]
    cases hord : OrderService.getOrder db.orders orderId with
    | none => simp [settle, hreq, hord]
    | some order =>
      by_cases hstat : order.status ≠ "pending"
      · simp [settle, hreq, hord, hstat]
      by_cases huser : order.userId ≠ uid
      · simp [settle, hreq, hord, hstat, huser]
      cases discountCode with
      | none =>
        simp [settle, hreq, hord, hstat, huser, settleNumbers_gatewayAndCommit]
      | some rawCode =>
        by_cases hblank : rawCode = "" ∨ jsTrim rawCode = ""
        · simp [settle, hreq, hord, hstat, huser, hblank,
            settleNumbers_gatewayAndCommit]
        simp only [settle, if_neg hreq, hord, if_neg hstat, if_neg huser,
          if_neg hblank]
        rw [validateDiscount_setFullFlag]
        cases hv : DiscountService.validateDiscount db.discounts (jsTrim rawCode)
            order.amount with
        | invalid m => rfl
        | valid d =>
          obtain ⟨i, co, b, fl, st, de, uc, mu, ma⟩ := d
          simp [settleNumbers_gatewayAndCommit, ite_self]


/-- Claim C7 (counterexample): the claim reads the usage-cap gate as
"maxUsage unset OR usageCount < maxUsage".  On a discount whose maxUsage is
explicitly 0 with usageCount 3, that condition is false - the spec-side
redeemability predicate rejects - yet validateDiscount returns valid, because
the code tests the field for JavaScript truthiness and 0 is falsy. -/
theorem claim_C7_counterexample :
    DiscountService.validateDiscount cDB.discounts "ZERO" 10 =
      .valid cZeroDiscount ∧
    specRedeemable cDB.discounts "ZERO" 10 = false ∧
    cZeroDiscount.maxUsage = some 0 ∧ cZeroDiscount.usageCount = 3 ∧
    cZeroDiscount.status = "active" :=
  ⟨rfl, rfl, rfl, rfl, rfl⟩

/-- Claim C7 (amended): validate(code, orderAmount) returns valid with the
unchanged discount record iff the code exists (case-sensitive exact match),
its status is active, its usage cap is not reached (maxUsage unset OR ZERO, or
usageCount < maxUsage), and the amount meets the minimum (minAmount unset OR
ZERO, or orderAmount ≥ minAmount); otherwise the first applicable reason wins,
checked in the order NotFound (code does not exist), Inactive, UsageExceeded,
BelowMinimum. -/
theorem claim_C7_amended_validate_characterization :
    ∀ (ds : List Discount) (code : String) (amt : Int),
      (∀ d, DiscountService.validateDiscount ds code amt = .valid d ↔
        (DiscountService.getDiscountByCode ds code = some d ∧
         d.status = "active" ∧
         (optNatTruthy d.maxUsage = false ∨ d.usageCount < d.maxUsage.getD 0) ∧
         (optIntTruthy d.minAmount = false ∨ d.minAmount.getD 0 ≤ amt))) ∧
      (DiscountService.getDiscountByCode ds code = none →
        DiscountService.validateDiscount ds code amt = .invalid "优惠码不存在") ∧
      (∀ d, DiscountService.getDiscountByCode ds code = some d →
        d.status ≠ "active" →
        DiscountService.validateDiscount ds code amt = .invalid "优惠码已失效") ∧
      (∀ d, DiscountService.getDiscountByCode ds code = some d →
        d.status = "active" →
        optNatTruthy d.maxUsage = true → d.maxUsage.getD 0 ≤ d.usageCount →
        DiscountService.validateDiscount ds code amt =
          .invalid "优惠码使用次数已达上限") ∧
      (∀ d, DiscountService.getDiscountByCode ds code = some d →
        d.status = "active" →
        ¬(optNatTruthy d.maxUsage = true ∧ d.maxUsage.getD 0 ≤ d.usageCount) →
        optIntTruthy d.minAmount = true → amt < d.minAmount.getD 0 →
        DiscountService.validateDiscount ds code amt =
          .invalid ("订单金额需满" ++ toString (d.minAmount.getD 0) ++ "元")) := by
  intro ds code amt
  refine ⟨?_, ?_, ?_, ?_, ?_⟩
  · intro d
    constructor
    · intro h
      obtain ⟨heq, h1, h2, h3⟩ := validateDiscount_valid_inv h
      refine ⟨heq, h1, ?_, ?_⟩
      · by_cases hb : optNatTruthy d.maxUsage = true
        · refine Or.inr ?_
          by_contra hle
          exact h2 ⟨hb, by omega⟩
        · exact Or.inl (by simpa using hb)
      · by_cases hb : optIntTruthy d.minAmount = true
        · refine Or.inr ?_
          by_contra hlt
          exact h3 ⟨hb, by omega⟩
        · exact Or.inl (by simpa using hb)
    · rintro ⟨heq, h1, h2, h3⟩
      refine validateDiscount_valid_of heq h1 ?_ ?_
      · rintro ⟨ht, hle⟩
        rcases h2 with hb | hb
        · rw [ht] at hb
          cases hb
        · omega
      · rintro ⟨ht, hlt⟩
        rcases h3 with hb | hb
        · rw [ht] at hb
          cases hb
        · omega
  · intro hnone
    unfold DiscountService.validateDiscount
    rw [hnone]
  · intro d heq h1
    simp only [DiscountService.validateDiscount, heq]
    rw [if_pos h1]
  · intro d heq h1 h2 h3
    simp only [DiscountService.validateDiscount, heq]
    rw [if_neg (by simp [h1]), if_pos ⟨h2, h3⟩]
  · intro d heq h1 hcap h2 h3
    simp only [DiscountService.validateDiscount, heq]
    rw [if_neg (by simp [h1]), if_neg hcap, if_pos ⟨h2, h3⟩]

/-- Witness for the amended claim C7: the validity characterization and the
first two rejection reasons at concrete inputs. -/
theorem claim_C7_witness :
    DiscountService.validateDiscount cDB.discounts "SAVE20" 100 =
      .valid cDiscount ∧
    DiscountService.validateDiscount cDB.discounts "NOPE" 100 =
      .invalid "优惠码不存在" :=
  ⟨((claim_C7_amended_validate_characterization cDB.discounts "SAVE20" 100).1
      cDiscount).mpr ⟨by rfl, by decide, by decide, by decide⟩,
   (claim_C7_amended_validate_characterization cDB.discounts "NOPE" 100).2.1
      (by rfl)⟩


/-- Claim C8: the validation-preview endpoint is read-only: it returns the
store exactly as given (so repeated calls with the same code and amount are
idempotent and never change any usageCount), and on success the discount in
the payload is the stored record itself, unchanged. -/
theorem claim_C8_preview_readonly :
    ∀ (db : DB) (code : Option String) (amount : Option Int),
      (validatePreviewRoute db code amount).1 = db ∧
      validatePreviewRoute (validatePreviewRoute db code amount).1 code amount =
        validatePreviewRoute db code amount ∧
      (∀ p, (validatePreviewRoute db code amount).2 = .ok p →
        ∃ c, code = some c ∧
          DiscountService.getDiscountByCode db.discounts (jsTrim c) =
            some p.discount) := by
  intro db code amount
  refine ⟨validatePreviewRoute_fst db code amount, ?_, ?_⟩
  · rw [validatePreviewRoute_fst]
  · intro p h
    obtain ⟨c, amt, hc, _, _, _, hv, _⟩ := validatePreviewRoute_ok_inv h
    exact ⟨c, hc, (validateDiscount_valid_inv hv).1⟩

/-- Witness for claim C8 at a concrete preview call. -/
theorem claim_C8_witness :
    (validatePreviewRoute cDB (some "ZERO") (some 10)).1 = cDB ∧
    DiscountService.getDiscountByCode cDB.discounts (jsTrim "ZERO") =
      some cZeroDiscount :=
  have h := claim_C8_preview_readonly cDB (some "ZERO") (some 10)
  ⟨h.1, by
    obtain ⟨c, hc, hlook⟩ := h.2.2
      { discount := cZeroDiscount
        originalAmount := 10
        discountAmount := 5
        finalAmount := 5
        savings := 5 } (by rfl)
    rw [← Option.some.inj hc] at hlook
    exact hlook⟩

/-- Claim C9: validateDiscount tests maxUsage and minAmount for JavaScript
truthiness, so a discount with maxUsage explicitly 0 has no usage cap (the
UsageExceeded gate passes for every usageCount) and a discount with minAmount
explicitly 0 has no minimum (the BelowMinimum gate passes for every positive
order amount). -/
theorem claim_C9_zero_means_unlimited :
    ∀ (ds : List Discount) (code : String) (amt : Int) (d : Discount),
      DiscountService.getDiscountByCode ds code = some d →
      d.status = "active" →
      (d.maxUsage = some 0 →
        (optIntTruthy d.minAmount = false ∨ d.minAmount.getD 0 ≤ amt) →
        DiscountService.validateDiscount ds code amt = .valid d) ∧
      (d.minAmount = some 0 → 0 < amt →
        ¬(optNatTruthy d.maxUsage = true ∧ d.maxUsage.getD 0 ≤ d.usageCount) →
        DiscountService.validateDiscount ds code amt = .valid d) := by
  intro ds code amt d heq h1
  constructor
  · intro hmu hmin
    refine validateDiscount_valid_of heq h1 ?_ ?_
    · rintro ⟨ht, _⟩
      rw [hmu] at ht
      simp [optNatTruthy] at ht
    · rintro ⟨ht, hlt⟩
      rcases hmin with hb | hb
      · rw [ht] at hb
        cases hb
      · omega
  · intro hma hpos hcap
    refine validateDiscount_valid_of heq h1 hcap ?_
    rintro ⟨ht, _⟩
    rw [hma] at ht
    simp [optIntTruthy] at ht

/-- Witness for claim C9: the maxUsage 0, minAmount 0 discount with
usageCount 3 validates at a positive amount. -/
theorem claim_C9_witness :
    DiscountService.validateDiscount cDB.discounts "ZERO" 7 =
      .valid cZeroDiscount :=
  (claim_C9_zero_means_unlimited cDB.discounts "ZERO" 7 cZeroDiscount
    (by rfl) (by decide)).1 (by decide) (by decide)

/-- Claim C10: on every successful settlement that used a discount code, the
discount embedded in the response is the record as read during validation,
before the usage increment: the row stored under the same discountId at
response time carries usageCount one greater, so the response usageCount
equals the stored value minus one. -/
theorem claim_C10_response_discount_stale :
    ∀ (db db2 : DB) (orderId : String) (discountCode : Option String)
      (pm uid : String) (gw : Bool) (rid : String) (r : SettleSuccess) (d : Discount),
      settle db orderId discountCode pm uid gw rid = (db2, .ok r) →
      r.discount = some d →
      db.discounts.Pairwise (fun a b => a.discountId ≠ b.discountId) →
      ∃ rawCode d2,
        discountCode = some rawCode ∧
        DiscountService.getDiscountByCode db.discounts (jsTrim rawCode) = some d ∧
        db2.discounts.find? (fun x => x.discountId == d.discountId) = some d2 ∧
        d2.usageCount = d.usageCount + 1 ∧
        d.usageCount = d2.usageCount - 1 := by
  intro db db2 orderId discountCode pm uid gw rid r d h hd huniq
  obtain ⟨order, _, _, _, _, _, _, _, _, _, _, _, hcase⟩ := settle_ok_inv h
  rcases hcase with ⟨hnone, _, _, _⟩ | ⟨d0, rawCode, hdc, hsome, hv, _, _, hdisc⟩
  · rw [hnone] at hd
    cases hd
  · rw [hsome] at hd
    have hd0 : d0 = d := Option.some.inj hd
    subst hd0
    have hlookup := (validateDiscount_valid_inv hv).1
    have hmem : d0 ∈ db.discounts := List.mem_of_find?_eq_some hlookup
    have hfind := find?_applyDiscount hmem huniq
    refine ⟨rawCode, { d0 with usageCount := d0.usageCount + 1 }, hdc, hlookup, ?_, rfl, rfl⟩
    rw [hdisc]
    exact hfind

/-- Witness for claim C10 at the concrete settlement: the response discount
still shows usageCount 0 while the store holds usageCount 1. -/
theorem claim_C10_witness :
    DiscountService.getDiscountByCode cDB.discounts (jsTrim "SAVE20") =
      some cDiscount ∧
    cDB2.discounts.find? (fun x => x.discountId == cDiscount.discountId) =
      some { cDiscount with usageCount := 1 } ∧
    cDiscount.usageCount = 0 := by
  obtain ⟨rawCode, d2, hdc, hlook, hfind, hcount, _⟩ :=
    claim_C10_response_discount_stale cDB cDB2 "o1" (some "SAVE20") "card" "u1"
      true "r1" cSettled cDiscount (by rfl) (by rfl) (by decide)
  have hrc : rawCode = "SAVE20" := (Option.some.inj hdc).symm
  subst hrc
  have hd2 : d2 = { cDiscount with usageCount := 1 } :=
    Option.some.inj (hfind.symm.trans (by rfl))
  exact ⟨hlook, hd2 ▸ hfind, rfl⟩

end Pay
